import Mathlib

/-!
Verification development for the movie-catalog object model
(module02: `rating.py`, `person.py`, `movie.py`).

The Python source is shallowly embedded: each Python function becomes an
executable Lean definition over explicit state (the flyweight registries
become association lists threaded through the operations), and the claims
of the specification are settled as theorems about those definitions.

String primitives (`str.strip`, `str.lower`, `str.upper`, `str.split`,
lexicographic `<` on `str`, `int(...)`, `datetime.strptime(s, "%Y-%m-%d")`)
are modelled as structurally recursive functions on `List Char` so that
all evaluations kernel-reduce; they match the Python semantics on the
character ranges the program uses (ASCII letters/digits, whitespace).
-/

deriving instance DecidableEq for Except

namespace Syntra

/-! ## String primitives, modelled from Python semantics -/

/-- The whitespace set of Python `str.strip()` (space, tab, LF, VT, FF, CR). -/
def wsChar (c : Char) : Bool :=
  c.toNat = 32 || c.toNat = 9 || c.toNat = 10 || c.toNat = 11 ||
  c.toNat = 12 || c.toNat = 13

/-- Drop trailing characters satisfying `p` (via reversal). -/
def dropTrail (p : Char → Bool) (l : List Char) : List Char :=
  (l.reverse.dropWhile p).reverse

/-- Python `str.strip()` on the character list: drop leading and trailing
whitespace. -/
def stripChars (l : List Char) : List Char :=
  dropTrail wsChar (l.dropWhile wsChar)

/-- Python `str.strip()`. -/
def pyStrip (s : String) : String := String.mk (stripChars s.data)

/-- ASCII lower-casing of one character (Python `str.lower` on the
program's ASCII inputs). -/
def lowerChar (c : Char) : Char :=
  if 65 ≤ c.toNat ∧ c.toNat ≤ 90 then Char.ofNat (c.toNat + 32) else c

/-- ASCII upper-casing of one character (Python `str.upper` on the
program's ASCII inputs). -/
def upperChar (c : Char) : Char :=
  if 97 ≤ c.toNat ∧ c.toNat ≤ 122 then Char.ofNat (c.toNat - 32) else c

/-- Python `str.lower()`. -/
def pyLower (s : String) : String := String.mk (s.data.map lowerChar)

/-- Python `str.upper()`. -/
def pyUpper (s : String) : String := String.mk (s.data.map upperChar)

/-- Lexicographic comparison of character lists by code point,
as Python compares `str` values with `<`. -/
def charListLt : List Char → List Char → Bool
  | [], [] => false
  | [], _ :: _ => true
  | _ :: _, [] => false
  | a :: as, b :: bs =>
    if a.toNat < b.toNat then true
    else if a.toNat = b.toNat then charListLt as bs
    else false

/-- Python `<` on strings. -/
def pyStrLt (a b : String) : Bool := charListLt a.data b.data

/-- Python `s.split(sep)` for a one-character separator: split on every
occurrence, keeping empty pieces. -/
def splitOnChar (sep : Char) : List Char → List (List Char)
  | [] => [[]]
  | c :: cs =>
    let r := splitOnChar sep cs
    if c = sep then [] :: r
    else
      match r with
      | h :: t => (c :: h) :: t
      | [] => [[c]]

/-- Python `s.split(sep)` lifted to strings. -/
def pySplit (sep : Char) (s : String) : List String :=
  (splitOnChar sep s.data).map String.mk

/-- ASCII decimal digit test. -/
def isDigitB (c : Char) : Bool := 48 ≤ c.toNat && c.toNat ≤ 57

/-- Numeric value of an ASCII digit. -/
def digitVal (c : Char) : Nat := c.toNat - 48

/-- Value of a digit list, most significant first. -/
def digitsVal (l : List Char) : Nat :=
  l.foldl (fun acc c => 10 * acc + digitVal c) 0

/-- Digit-run validation for Python `int(...)`: at least one digit, and a
single underscore may appear only between two digits.  `needDigit` is true
at the start and right after an underscore. -/
def intDigitsOK : Bool → List Char → Bool
  | needDigit, [] => !needDigit
  | needDigit, c :: cs =>
    if c = '_' then !needDigit && intDigitsOK true cs
    else isDigitB c && intDigitsOK false cs

/-- Python `int(s)` for decimal strings: surrounding whitespace is
stripped, one optional sign, then digits with optional single underscores
between digits; anything else raises, modelled as `none`. -/
def pyParseInt (s : String) : Option Int :=
  let t := stripChars s.data
  let core : List Char → Option Nat := fun l =>
    if intDigitsOK true l then some (digitsVal (l.filter isDigitB)) else none
  match t with
  | '+' :: r => (core r).map (fun n => (n : Int))
  | '-' :: r => (core r).map (fun n => -(n : Int))
  | r => (core r).map (fun n => (n : Int))

/-! ## Rating (`module02/movie/rating.py`) -/

/-- A content rating: `code` and `description`, as in `MovieRating`. -/
structure MovieRating where
  code : String
  description : String
deriving DecidableEq, Repr

/-- `MovieRating._rating_order`: the predefined comparison order. -/
def ratingOrder : List String := ["NR", "G", "PG", "PG-13", "R", "NC17"]

/-- `list.index` as an `Option`: position of the first occurrence. -/
def idxOf? (x : String) : List String → Option Nat
  | [] => none
  | y :: ys => if y = x then some 0 else (idxOf? x ys).map (· + 1)

/-- `MovieRating.__lt__`: compare by position in `ratingOrder`; if either
code is absent from it, fall back to Python string comparison of the codes
(the `except ValueError` branch). -/
def ratingLt (a b : MovieRating) : Bool :=
  match idxOf? a.code ratingOrder, idxOf? b.code ratingOrder with
  | some i, some j => i < j
  | _, _ => pyStrLt a.code b.code

/-- `MovieRating.__eq__`: equal iff the codes match. -/
def ratingEq (a b : MovieRating) : Bool := a.code = b.code

/-- `MovieRating.__le__`: `self < other or self == other`. -/
def ratingLe (a b : MovieRating) : Bool := ratingLt a b || ratingEq a b

/-- `MovieRating.__gt__`: `not self <= other`. -/
def ratingGt (a b : MovieRating) : Bool := !(ratingLe a b)

/-- `MovieRating.__ge__`: `not self < other`. -/
def ratingGe (a b : MovieRating) : Bool := !(ratingLt a b)

/-- The predefined rating `NR`. -/
def NR : MovieRating := ⟨"NR", "Not Rated"⟩
/-- The predefined rating `G`. -/
def G : MovieRating := ⟨"G", "General Audiences"⟩
/-- The predefined rating `PG`. -/
def PG : MovieRating := ⟨"PG", "Parental Guidance Suggested"⟩
/-- The predefined rating `PG13`.  Its code is `"PG-13"`. -/
def PG13 : MovieRating := ⟨"PG-13", "Parents Strongly Cautioned"⟩
/-- The predefined rating `R`. -/
def R : MovieRating := ⟨"R", "Restricted"⟩
/-- The predefined rating `NC17`.  Note: the source constructs it with
code `"NC-17"`, not `"NC17"`. -/
def NC17 : MovieRating := ⟨"NC-17", "Adults Only"⟩

/-- Rating lookup error, the spec's `NotFound` kind (`ValueError` in the
source). -/
inductive RErr where
  | notFound
deriving DecidableEq, Repr

/-- The flyweight registry `MovieRating._ratings` right after module
import: the six predefined instances keyed by their codes, inserted in
creation order. -/
def initRatings : List (String × MovieRating) :=
  [("NR", NR), ("G", G), ("PG", PG), ("PG-13", PG13), ("R", R), ("NC-17", NC17)]

/-- Association-list lookup (Python `dict` access by key). -/
def lookupAssoc {α : Type} (l : List (String × α)) (k : String) : Option α :=
  match l with
  | [] => none
  | (k', v) :: rest => if k' = k then some v else lookupAssoc rest k

/-- `get_rating(code)`: return the registered instance, or fail with
NotFound when the code is unregistered. -/
def get_rating (code : String) (reg : List (String × MovieRating)) :
    Except RErr MovieRating :=
  match lookupAssoc reg code with
  | some r => .ok r
  | none => .error RErr.notFound

/-! ## Person (`module02/person/person.py`) -/

/-- A person.  `pid` models object identity (allocation order) so that
"returns the identical instance" is expressible; `full_name` is the
trimmed display form stored by `Person.__init__`. -/
structure Person where
  pid : Nat
  full_name : String
deriving DecidableEq, Repr

/-- Person-registry errors: the spec's `InvalidArgument` (empty name) and
`DuplicateKey` kinds (both `ValueError` in the source). -/
inductive PErr where
  | invalidArgument
  | duplicateKey
deriving DecidableEq, Repr

/-- The flyweight registry `Person._persons` plus an allocation counter:
an association list from normalized name to the canonical `Person`. -/
structure PersonState where
  persons : List (String × Person)
  nextId : Nat
deriving DecidableEq, Repr

/-- The empty person registry. -/
def emptyPersonState : PersonState := ⟨[], 0⟩

/-- The normalized identity key: trimmed then lower-cased, as computed in
`Person.__init__`. -/
def normKey (name : String) : String := pyLower (pyStrip name)

/-- `Person.__init__` / the spec's `create(name)`: fail on an empty
(after trimming) name, fail on a duplicate normalized key, otherwise
register and return a new `Person` carrying the trimmed name. -/
def createPerson (full_name : String) (st : PersonState) :
    Except PErr (Person × PersonState) :=
  if pyStrip full_name = "" then .error PErr.invalidArgument
  else
    match lookupAssoc st.persons (pyLower (pyStrip full_name)) with
    | some _ => .error PErr.duplicateKey
    | none =>
      .ok (⟨st.nextId, pyStrip full_name⟩,
           ⟨st.persons ++ [(pyLower (pyStrip full_name), ⟨st.nextId, pyStrip full_name⟩)],
            st.nextId + 1⟩)

/-- `get_person(full_name)` / the spec's `get_or_create(name)`: validate
non-emptiness, return the existing instance for the normalized key, or
construct a new `Person` (the source calls the constructor with the
stripped name). -/
def get_person (full_name : String) (st : PersonState) :
    Except PErr (Person × PersonState) :=
  if pyStrip full_name = "" then .error PErr.invalidArgument
  else
    match lookupAssoc st.persons (pyLower (pyStrip full_name)) with
    | some p => .ok (p, st)
    | none => createPerson (pyStrip full_name) st

/-- The spec's `count()`, realized in the source as
`len(Person._persons)` (`count_person_objects` in `eval_02.py`). -/
def countPersons (st : PersonState) : Nat := st.persons.length

/-! ## Dates (`datetime.strptime(s, "%Y-%m-%d")`) -/

/-- A parsed calendar date. -/
structure PDate where
  year : Nat
  month : Nat
  day : Nat
deriving DecidableEq, Repr

/-- Gregorian leap-year test, as `datetime` validates day-of-month. -/
def isLeap (y : Nat) : Bool :=
  y % 4 = 0 && (y % 100 ≠ 0 || y % 400 = 0)

/-- Days in a month of a given year. -/
def daysInMonth (y m : Nat) : Nat :=
  if m = 2 then (if isLeap y then 29 else 28)
  else if m = 4 || m = 6 || m = 9 || m = 11 then 30
  else 31

/-- `datetime.strptime(s, "%Y-%m-%d")` as an `Option`: exactly three
dash-separated fields, a four-digit year (`%Y`), one- or two-digit month
and day (`%m`/`%d` accept unpadded values), months 1–12, days valid for
the month, year at least 1; any other shape or trailing text fails. -/
def parseDateYMD (s : String) : Option PDate :=
  match (splitOnChar '-' s.data).map String.mk with
  | [ys, ms, ds] =>
    if ys.data.length = 4 && ys.data.all isDigitB &&
       decide (1 ≤ ms.data.length) && ms.data.length ≤ 2 && ms.data.all isDigitB &&
       decide (1 ≤ ds.data.length) && ds.data.length ≤ 2 && ds.data.all isDigitB then
      let y := digitsVal ys.data
      let m := digitsVal ms.data
      let d := digitsVal ds.data
      if decide (1 ≤ y) && decide (1 ≤ m) && m ≤ 12 &&
         decide (1 ≤ d) && d ≤ daysInMonth y m then
        some ⟨y, m, d⟩
      else none
    else none
  | _ => none

/-! ## Movie (`module02/movie/movie.py`) -/

/-- The shared attribute record of the abstract `Movie` base class.
Optional Python attributes (`None`-able) are `Option`s. -/
structure Movie where
  rt_link : String
  title : String
  rating : MovieRating
  directors : List Person
  release_date : Option PDate
  streaming_date : Option PDate
  length : Option Int
  company : Option String
  score : Option Int
  count : Option Int
deriving DecidableEq, Repr

/-- The seven concrete genre subclasses as a closed variant. -/
inductive Genre where
  | actionAdventure
  | comedy
  | drama
  | horror
  | romance
  | scienceFictionFantasy
  | western
deriving DecidableEq, Repr

/-- A constructed movie: its genre subclass together with the shared
attribute record. -/
structure GMovie where
  genre : Genre
  movie : Movie
deriving DecidableEq, Repr

/-- The genre-specific methods each subclass declares beyond the base
class: `Comedy.is_slapstick`, `Horror.is_scary`, `Romance.is_cosy`;
the other four subclasses add none (`pass`). -/
def genreMethods : Genre → List String
  | .comedy => ["is_slapstick"]
  | .horror => ["is_scary"]
  | .romance => ["is_cosy"]
  | _ => []

/-- Whether the constructed object exposes a genre-specific method
(Python `hasattr`). -/
def exposesMethod (g : Genre) (name : String) : Bool :=
  (genreMethods g).contains name

/-- `Movie.relevant_score`: a score is present and backed by at least 100
votes. -/
def relevant_score (m : Movie) : Bool :=
  match m.score, m.count with
  | some _, some c => decide (100 ≤ c)
  | _, _ => false

/-- `Movie.is_short`: length present and under 30 minutes. -/
def is_short (m : Movie) : Bool :=
  match m.length with
  | some l => decide (l < 30)
  | none => false

/-- `Comedy.is_slapstick`: relevant score below 40. -/
def is_slapstick (m : Movie) : Bool :=
  relevant_score m &&
    (match m.score with
     | some s => decide (s < 40)
     | none => false)

/-- `Romance.is_cosy`: length present and between 70 and 100 minutes. -/
def is_cosy (m : Movie) : Bool :=
  match m.length with
  | some l => decide (70 ≤ l) && decide (l ≤ 100)
  | none => false

/-- `Horror.is_scary`: the movie's rating is greater than the registered
`"PG"` rating (the method calls `get_rating("PG")` at run time, so it
depends on the rating registry). -/
def horror_is_scary (m : Movie) (reg : List (String × MovieRating)) :
    Except RErr Bool :=
  match get_rating "PG" reg with
  | .error e => .error e
  | .ok pg => .ok (ratingGt m.rating pg)

/-! ## Factory (`create_movie` in `module02/movie/movie.py`) -/

/-- Factory errors: all `ValueError`s in the source, the spec's
`InvalidArgument` kinds ("missing required fields", "invalid rating
code", "unknown genre"). -/
inductive CreateErr where
  | missingRequired
  | invalidRating
  | unknownGenre
  | personError (e : PErr)
deriving DecidableEq, Repr

/-- A raw field mapping (`csv.DictReader` row): Python `dict.get` is
function application, `none` when the key is absent. -/
def FieldMap : Type := String → Option String

/-- Update a field mapping at one key (used to state the
blank-one-field properties). -/
def setF (info : FieldMap) (k v : String) : FieldMap :=
  fun k' => if k' = k then some v else info k'

/-- The fixed `genre_map` table of `create_movie`. -/
def genreTable : List (String × Genre) :=
  [("ACTION & ADVENTURE", .actionAdventure),
   ("COMEDY", .comedy),
   ("DRAMA", .drama),
   ("HORROR", .horror),
   ("ROMANCE", .romance),
   ("SCIENCE FICTION & FANTASY", .scienceFictionFantasy),
   ("WESTERN", .western)]

/-- `genre_map.get(genre.upper())`: case-insensitive exact dispatch. -/
def dispatchGenre (genre : String) : Option Genre :=
  lookupAssoc genreTable (pyUpper genre)

/-- The director tokens of `create_movie`: split the field on commas,
strip each token, and discard tokens that strip to empty. -/
def directorTokens (directors_str : String) : List String :=
  if directors_str = "" then []
  else ((pySplit ',' directors_str).map pyStrip).filter (fun t => t ≠ "")

/-- Resolve each director name through `get_person` in order, threading
the registry (the list comprehension `[get_person(name) for name in
director_names]`); an exception would propagate. -/
def resolveDirectors : List String → PersonState →
    Except PErr (List Person × PersonState)
  | [], st => .ok ([], st)
  | n :: ns, st =>
    match get_person n st with
    | .error e => .error e
    | .ok (p, st') =>
      match resolveDirectors ns st' with
      | .error e => .error e
      | .ok (ps, st'') => .ok (p :: ps, st'')

/-- One optional date field of `create_movie`: absent or empty stays
absent, otherwise `strptime`, leaving the field absent on parse failure. -/
def optDate (field : Option String) : Option PDate :=
  match field with
  | some s => if s = "" then none else parseDateYMD s
  | none => none

/-- One optional integer field of `create_movie` (read with
`.get(key, '')`): empty stays absent, otherwise `int(...)`, leaving the
field absent on parse failure. -/
def optInt (field : Option String) : Option Int :=
  match field with
  | some s => if s = "" then none else pyParseInt s
  | none => none

/-- `create_movie(movie_info)`: validate the four required fields,
resolve the rating, resolve directors through the person registry, parse
the optional fields leniently, dispatch on the genre, and construct the
variant.  The person registry is global in the source, so the final
registry is returned alongside the result even on failure (an unknown
genre is detected only after directors were registered). -/
def create_movie (info : FieldMap) (rreg : List (String × MovieRating))
    (pst : PersonState) : Except CreateErr GMovie × PersonState :=
  match info "rotten_tomatoes_link", info "movie_title",
        info "content_rating", info "genre" with
  | some rt_link, some title, some rating_code, some genre =>
    if rt_link = "" || title = "" || rating_code = "" || genre = "" then
      (.error CreateErr.missingRequired, pst)
    else
      match get_rating rating_code rreg with
      | .error _ => (.error CreateErr.invalidRating, pst)
      | .ok rating =>
        let directors_str := (info "directors").getD ""
        match resolveDirectors (directorTokens directors_str) pst with
        | .error e => (.error (CreateErr.personError e), pst)
        | .ok (directors, pst') =>
          let release_date := optDate (info "original_release_date")
          let streaming_date := optDate (info "streaming_release_date")
          let length := optInt (info "runtime")
          let score := optInt (info "audience_rating")
          let count := optInt (info "audience_count")
          let company := info "production_company"
          match dispatchGenre genre with
          | none => (.error CreateErr.unknownGenre, pst')
          | some g =>
            (.ok ⟨g, ⟨rt_link, title, rating, directors, release_date,
                      streaming_date, length, company, score, count⟩⟩, pst')
  | _, _, _, _ => (.error CreateErr.missingRequired, pst)

/-- The concrete valid row used by the repository's own tests
(`MOVIE_INFO` in `test_movies.py`). -/
def MOVIE_INFO : FieldMap := fun k =>
  if k = "rotten_tomatoes_link" then some "m/1000640-all_of_me"
  else if k = "movie_title" then some "All of Me"
  else if k = "content_rating" then some "PG"
  else if k = "genre" then some "COMEDY"
  else if k = "directors" then some "Carl Reiner"
  else if k = "original_release_date" then some "1984-09-21"
  else if k = "streaming_release_date" then some "2016-10-30"
  else if k = "runtime" then some "93"
  else if k = "production_company" then some "HBO Video"
  else if k = "audience_rating" then some "67"
  else if k = "audience_count" then some "14346"
  else none

/-- Whether a person-registry operation failed with the DuplicateKey
kind. -/
def isDuplicateErr : Except PErr (Person × PersonState) → Bool
  | .error PErr.duplicateKey => true
  | _ => false

/-! ## A reference-semantics model of Python lists
(for the `Movie.directors` defensive-copy property)

`Movie._directors` is a Python list, i.e. a mutable reference into a
heap.  The heap is a store mapping addresses to list contents (person
ids); the accessor `Movie.directors` performs `self._directors.copy()`,
which allocates a fresh address holding the same contents; mutating a
list writes through its address. -/

/-- A store of Python list objects: contents per address, plus the next
fresh address.  Addresses below `next` are allocated. -/
structure ListStore where
  mem : Nat → List Nat
  next : Nat

/-- The `directors` property: `return self._directors.copy()` — allocate
a fresh list object with the same contents and return its address. -/
def directorsCopy (dirAddr : Nat) (s : ListStore) : Nat × ListStore :=
  (s.next,
   ⟨fun a => if a = s.next then s.mem dirAddr else s.mem a, s.next + 1⟩)

/-- In-place mutation of the list object at an address (e.g.
`lst.append(...)`, `lst[i] = ...`, `lst.clear()` — any rebinding of its
contents). -/
def storeWrite (s : ListStore) (a : Nat) (v : List Nat) : ListStore :=
  ⟨fun x => if x = a then v else s.mem x, s.next⟩

/-- A one-movie sample store: address 0 holds a director list. -/
def sampleStore : ListStore :=
  ⟨fun a => if a = 0 then [5, 7] else [], 1⟩

/-- The test row with a malformed `runtime` field. -/
def MOVIE_INFO_badRuntime : FieldMap := setF MOVIE_INFO "runtime" "abc"

/-! ## Helper lemmas -/

theorem dropWhile_self {α : Type} (p : α → Bool) (l : List α) :
    (l.dropWhile p).dropWhile p = l.dropWhile p := by
  induction l with
  | nil => rfl
  | cons a t ih =>
    by_cases h : p a
    · simp [List.dropWhile_cons, h, ih]
    · simp [List.dropWhile_cons, h]

theorem dropWhile_append_last {α : Type} (p : α → Bool) (a : α)
    (ha : p a = false) (l : List α) :
    ∃ m, (l ++ [a]).dropWhile p = m ++ [a] := by
  induction l with
  | nil => exact ⟨[], by simp [List.dropWhile_cons, ha]⟩
  | cons b t ih =>
    by_cases hb : p b
    · simpa [List.dropWhile_cons, hb] using ih
    · exact ⟨b :: t, by simp [List.dropWhile_cons, hb]⟩

theorem dropTrail_self (p : Char → Bool) (l : List Char) :
    dropTrail p (dropTrail p l) = dropTrail p l := by
  unfold dropTrail
  rw [List.reverse_reverse, dropWhile_self]

theorem dropWhile_dropTrail (p : Char → Bool) (l : List Char)
    (h : l.dropWhile p = l) :
    (dropTrail p l).dropWhile p = dropTrail p l := by
  cases l with
  | nil => rfl
  | cons a t =>
    have ha : p a = false := by
      by_contra hpa
      rw [List.dropWhile_cons, if_pos (by simpa using hpa)] at h
      have hle := (List.dropWhile_sublist (l := t) p).length_le
      have h2 : (t.dropWhile p).length = (a :: t).length := by rw [h]
      simp at h2
      omega
    obtain ⟨m, hm⟩ := dropWhile_append_last p a ha t.reverse
    have hdt : dropTrail p (a :: t) = a :: m.reverse := by
      unfold dropTrail
      rw [List.reverse_cons, hm, List.reverse_append]
      simp
    rw [hdt]
    simp [List.dropWhile_cons, ha]

theorem stripChars_idem (l : List Char) :
    stripChars (stripChars l) = stripChars l := by
  unfold stripChars
  rw [dropWhile_dropTrail wsChar (l.dropWhile wsChar) (dropWhile_self wsChar l),
      dropTrail_self]

theorem pyStrip_idem (s : String) : pyStrip (pyStrip s) = pyStrip s :=
  congrArg String.mk (stripChars_idem s.data)

theorem get_person_ok (t : String) (st : PersonState)
    (hne : t ≠ "") (hid : pyStrip t = t) :
    ∃ p st', get_person t st = .ok (p, st') := by
  unfold get_person
  rw [hid, if_neg hne]
  cases hl : lookupAssoc st.persons (pyLower t) with
  | some p => exact ⟨p, st, rfl⟩
  | none =>
    unfold createPerson
    rw [hid, if_neg hne, hl]
    exact ⟨_, _, rfl⟩

theorem directorTokens_strip (s : String) :
    ∀ t ∈ directorTokens s, t ≠ "" ∧ pyStrip t = t := by
  intro t ht
  unfold directorTokens at ht
  by_cases h : s = ""
  · simp [h] at ht
  · rw [if_neg h] at ht
    rw [List.mem_filter] at ht
    obtain ⟨hmem, hne⟩ := ht
    refine ⟨by simpa using hne, ?_⟩
    obtain ⟨s', _, hs'⟩ := List.mem_map.mp hmem
    rw [← hs', pyStrip_idem]

theorem resolveDirectors_ok (ts : List String) :
    ∀ st : PersonState, (∀ t ∈ ts, t ≠ "" ∧ pyStrip t = t) →
    ∃ ps st', resolveDirectors ts st = .ok (ps, st') := by
  induction ts with
  | nil => exact fun st _ => ⟨[], st, rfl⟩
  | cons n ns ih =>
    intro st h
    obtain ⟨hne, hid⟩ := h n (by simp)
    obtain ⟨p, st1, hp⟩ := get_person_ok n st hne hid
    obtain ⟨ps, st2, hps⟩ := ih st1 (fun t ht => h t (by simp [ht]))
    exact ⟨p :: ps, st2, by simp [resolveDirectors, hp, hps]⟩

theorem lookupAssoc_isSome {α : Type} (l : List (String × α)) (k : String) :
    (lookupAssoc l k).isSome = (l.map Prod.fst).contains k := by
  induction l with
  | nil => rfl
  | cons a t ih =>
    obtain ⟨k', v⟩ := a
    simp only [lookupAssoc, List.map_cons, List.contains_cons]
    by_cases h : k' = k
    · subst h
      simp
    · have hbeq : (k == k') = false := by
        rw [beq_eq_false_iff_ne]
        exact fun hk => h hk.symm
      rw [if_neg h, ih, hbeq, Bool.false_or]

/-- The success shape of `create_movie`: with the four required fields
present and non-empty, a registered rating code and a known genre, the
factory succeeds and every attribute of the result is the corresponding
parse of its field (so a malformed optional field merely leaves that
attribute absent). -/
theorem create_movie_ok (info : FieldMap)
    (rreg : List (String × MovieRating)) (pst : PersonState)
    (rt ti rc ge : String) (r : MovieRating) (g : Genre)
    (hrt : info "rotten_tomatoes_link" = some rt) (hrt' : rt ≠ "")
    (hti : info "movie_title" = some ti) (hti' : ti ≠ "")
    (hrc : info "content_rating" = some rc) (hrc' : rc ≠ "")
    (hge : info "genre" = some ge) (hge' : ge ≠ "")
    (hr : get_rating rc rreg = .ok r)
    (hg : dispatchGenre ge = some g) :
    ∃ ds pst',
      resolveDirectors (directorTokens ((info "directors").getD "")) pst =
        .ok (ds, pst') ∧
      create_movie info rreg pst =
        (.ok ⟨g, ⟨rt, ti, r, ds,
                  optDate (info "original_release_date"),
                  optDate (info "streaming_release_date"),
                  optInt (info "runtime"),
                  info "production_company",
                  optInt (info "audience_rating"),
                  optInt (info "audience_count")⟩⟩, pst') := by
  obtain ⟨ds, pst', hds⟩ :=
    resolveDirectors_ok (directorTokens ((info "directors").getD "")) pst
      (directorTokens_strip _)
  refine ⟨ds, pst', hds, ?_⟩
  unfold create_movie
  rw [hrt, hti, hrc, hge]
  simp only [hrt', hti', hrc', hge', decide_eq_true_eq, if_neg,
    decide_eq_false, Bool.or_self, Bool.false_or, Bool.or_false,
    if_false, hr, hds, hg]

theorem setF_same (info : FieldMap) (k v : String) : setF info k v k = some v :=
  if_pos rfl

theorem setF_other (info : FieldMap) (k v k' : String) (h : k' ≠ k) :
    setF info k v k' = info k' :=
  if_neg h

/-- Blanking (or omitting) any of the four required fields makes
`create_movie` fail with the "missing required fields" error, leaving the
person registry untouched. -/
theorem create_movie_blank_required (info : FieldMap)
    (rreg : List (String × MovieRating)) (pst : PersonState)
    (rt ti rc ge : String)
    (hrt : info "rotten_tomatoes_link" = some rt)
    (hti : info "movie_title" = some ti)
    (hrc : info "content_rating" = some rc)
    (hge : info "genre" = some ge)
    (h : rt = "" ∨ ti = "" ∨ rc = "" ∨ ge = "") :
    create_movie info rreg pst = (.error CreateErr.missingRequired, pst) := by
  unfold create_movie
  rw [hrt, hti, hrc, hge]
  have hcond : (rt = "" || ti = "" || rc = "" || ge = "") = true := by
    rcases h with h | h | h | h <;> simp [h]
  simp only [hcond, if_true]

/-! ## Claim theorems -/

/-- C1: evaluation of the comparison operators on the six predefined
rating instances.  The ten pairs among {NR, G, PG, PG-13, R} follow the
predefined order, every rating equals itself, and no pair satisfies both
`<` and `>`; but the claimed total order NR < G < PG < PG-13 < R < NC-17
fails on the sixth instance: `R < NC-17` is false and `NC-17 > R` is
false, and the comparison is even cyclic (`NC-17 < NR`, `NR < G`,
`G < NC-17`), because `_rating_order` lists the code "NC17" while the
predefined instance is registered with code "NC-17", so every comparison
against it takes the lexicographic-fallback branch. -/
theorem c1_rating_order_evaluation :
    ([(NR, G), (NR, PG), (NR, PG13), (NR, R), (G, PG), (G, PG13), (G, R),
      (PG, PG13), (PG, R), (PG13, R)].all
        (fun p => ratingLt p.1 p.2 && ratingGt p.2 p.1) = true) ∧
    ratingLt R NC17 = false ∧
    ratingGt NC17 R = false ∧
    ratingLt NC17 NR = true ∧
    ratingLt NR G = true ∧
    ratingLt G NC17 = true ∧
    ([NR, G, PG, PG13, R, NC17].all (fun a => ratingEq a a) = true) ∧
    ([NR, G, PG, PG13, R, NC17].all (fun a =>
      [NR, G, PG, PG13, R, NC17].all (fun b =>
        !(ratingLt a b && ratingGt a b))) = true) := by
  decide

/-- C2: evaluation of `get_rating` on the registry as populated at module
import.  The codes "NR", "G", "PG", "PG-13" and "R" resolve to their
canonical instances, but the claimed valid code "NC17" fails with
NotFound — the sixth instance was registered under "NC-17" — and an
undefined code such as "PG28" fails with NotFound as claimed. -/
theorem c2_lookup_evaluation :
    get_rating "NR" initRatings = .ok NR ∧
    get_rating "G" initRatings = .ok G ∧
    get_rating "PG" initRatings = .ok PG ∧
    get_rating "PG-13" initRatings = .ok PG13 ∧
    get_rating "R" initRatings = .ok R ∧
    get_rating "NC17" initRatings = .error RErr.notFound ∧
    get_rating "NC-17" initRatings = .ok NC17 ∧
    get_rating "PG28" initRatings = .error RErr.notFound := by
  decide

/-- C3: evaluation of `Horror.is_scary` over the six predefined ratings.
It is true for PG-13 and R as claimed (in particular true at R), and
false for NR, G and PG — but it is false for NC-17, contradicting the
claim (and the method's own docstring), because NC-17 compares below PG
under the lexicographic fallback. -/
theorem c3_is_scary_evaluation :
    horror_is_scary ⟨"m/h", "H", NR, [], none, none, none, none, none, none⟩
      initRatings = .ok false ∧
    horror_is_scary ⟨"m/h", "H", G, [], none, none, none, none, none, none⟩
      initRatings = .ok false ∧
    horror_is_scary ⟨"m/h", "H", PG, [], none, none, none, none, none, none⟩
      initRatings = .ok false ∧
    horror_is_scary ⟨"m/h", "H", PG13, [], none, none, none, none, none, none⟩
      initRatings = .ok true ∧
    horror_is_scary ⟨"m/h", "H", R, [], none, none, none, none, none, none⟩
      initRatings = .ok true ∧
    horror_is_scary ⟨"m/h", "H", NC17, [], none, none, none, none, none, none⟩
      initRatings = .ok false := by
  decide

/-- C8: the movie built from the test row (score=67, vote_count=14346,
rating=PG, length=93) has a relevant score, is not slapstick (67 ≥ 40)
and is not short; and a Romance movie with length 85 is cosy. -/
theorem c8_predicate_examples :
    (Except.map
      (fun gm => (relevant_score gm.movie, is_slapstick gm.movie,
                  is_short gm.movie))
      (create_movie MOVIE_INFO initRatings emptyPersonState).1 =
        .ok (true, false, false)) ∧
    is_cosy ⟨"m/r", "Rom", PG, [], none, none, some 85, none, none, none⟩ =
      true := by
  decide

/-- C6: genre dispatch is a case-insensitive exact match against the
fixed seven-entry table (`dispatchGenre` is defined exactly when the
upper-cased genre is one of the seven keys), each canonical name maps to
its variant, "Comedy" in mixed case builds a Comedy exposing
`is_slapstick` and exposing neither `is_cosy` nor `is_scary`, and an
unmatched genre fails with the "unknown genre" error. -/
theorem c6_genre_dispatch :
    (∀ g : String,
      (dispatchGenre g).isSome = (genreTable.map Prod.fst).contains (pyUpper g)) ∧
    dispatchGenre "ACTION & ADVENTURE" = some Genre.actionAdventure ∧
    dispatchGenre "Comedy" = some Genre.comedy ∧
    dispatchGenre "cOmEdY" = some Genre.comedy ∧
    dispatchGenre "Drama" = some Genre.drama ∧
    dispatchGenre "horror" = some Genre.horror ∧
    dispatchGenre "Romance" = some Genre.romance ∧
    dispatchGenre "Science Fiction & Fantasy" = some Genre.scienceFictionFantasy ∧
    dispatchGenre "Western" = some Genre.western ∧
    dispatchGenre "Mystery" = none ∧
    (Except.map
      (fun gm => (gm.genre, exposesMethod gm.genre "is_slapstick",
                  exposesMethod gm.genre "is_cosy",
                  exposesMethod gm.genre "is_scary"))
      (create_movie (setF MOVIE_INFO "genre" "coMedy") initRatings
        emptyPersonState).1 = .ok (Genre.comedy, true, false, false)) ∧
    (create_movie (setF MOVIE_INFO "genre" "MYSTERY") initRatings
      emptyPersonState).1 = .error CreateErr.unknownGenre := by
  exact ⟨fun g => lookupAssoc_isSome genreTable (pyUpper g), by decide⟩

/-- C4: `get_person` is case-insensitive and identity-preserving — it
never fails with DuplicateKey for any name and any registry state, and
"Jane Doe" followed by "JANE DOE" returns the identical instance (same
object id, registry unchanged) — while constructing a `Person` whose
normalized key is already registered fails with DuplicateKey: in
particular `create("Jane Doe")` called twice fails the second time. -/
theorem c4_person_dedup :
    (∀ (name : String) (st : PersonState),
      isDuplicateErr (get_person name st) = false) ∧
    get_person "Jane Doe" emptyPersonState =
      .ok (⟨0, "Jane Doe"⟩, ⟨[("jane doe", ⟨0, "Jane Doe"⟩)], 1⟩) ∧
    get_person "JANE DOE" ⟨[("jane doe", ⟨0, "Jane Doe"⟩)], 1⟩ =
      .ok (⟨0, "Jane Doe"⟩, ⟨[("jane doe", ⟨0, "Jane Doe"⟩)], 1⟩) ∧
    createPerson "Jane Doe" emptyPersonState =
      .ok (⟨0, "Jane Doe"⟩, ⟨[("jane doe", ⟨0, "Jane Doe"⟩)], 1⟩) ∧
    createPerson "Jane Doe" ⟨[("jane doe", ⟨0, "Jane Doe"⟩)], 1⟩ =
      .error PErr.duplicateKey := by
  refine ⟨?_, by decide, by decide, by decide, by decide⟩
  intro name st
  unfold get_person
  by_cases h : pyStrip name = ""
  · rw [if_pos h]
    rfl
  · rw [if_neg h]
    cases hl : lookupAssoc st.persons (pyLower (pyStrip name)) with
    | some p => rfl
    | none =>
      unfold createPerson
      rw [pyStrip_idem, if_neg h, hl]
      rfl

/-- C9: the `directors` accessor returns a defensive copy.  For a movie
whose internal director list lives at an allocated address, the accessor
returns a fresh list object with the same contents at a different
address; mutating the returned list leaves the movie's stored list
unchanged, and a subsequent accessor call still returns the original
sequence. -/
theorem c9_directors_defensive_copy (dirAddr : Nat) (s : ListStore)
    (v : List Nat) (h : dirAddr < s.next) :
    (directorsCopy dirAddr s).2.mem (directorsCopy dirAddr s).1 =
      s.mem dirAddr ∧
    (directorsCopy dirAddr s).1 ≠ dirAddr ∧
    (storeWrite (directorsCopy dirAddr s).2 (directorsCopy dirAddr s).1 v).mem
      dirAddr = s.mem dirAddr ∧
    (directorsCopy dirAddr
        (storeWrite (directorsCopy dirAddr s).2 (directorsCopy dirAddr s).1 v)).2.mem
      (directorsCopy dirAddr
        (storeWrite (directorsCopy dirAddr s).2 (directorsCopy dirAddr s).1 v)).1 =
      s.mem dirAddr := by
  have h1 : ¬(dirAddr = s.next) := by omega
  have h2 : ¬(s.next + 1 = s.next) := by omega
  refine ⟨by simp [directorsCopy], by simp [directorsCopy]; omega, ?_, ?_⟩
  · simp [directorsCopy, storeWrite, h1]
  · simp [directorsCopy, storeWrite, h1, h2]

/-- Witness for C9 at a concrete store: the movie's list lives at
address 0 with contents [5, 7], the copy is returned at address 1, and
overwriting the copy with [9] leaves address 0 at [5, 7]. -/
theorem c9_directors_defensive_copy_witness :
    0 < sampleStore.next ∧
    ((directorsCopy 0 sampleStore).2.mem (directorsCopy 0 sampleStore).1 =
       sampleStore.mem 0 ∧
     (directorsCopy 0 sampleStore).1 ≠ 0 ∧
     (storeWrite (directorsCopy 0 sampleStore).2 (directorsCopy 0 sampleStore).1
        [9]).mem 0 = sampleStore.mem 0 ∧
     (directorsCopy 0
         (storeWrite (directorsCopy 0 sampleStore).2
           (directorsCopy 0 sampleStore).1 [9])).2.mem
       (directorsCopy 0
         (storeWrite (directorsCopy 0 sampleStore).2
           (directorsCopy 0 sampleStore).1 [9])).1 = sampleStore.mem 0) :=
  ⟨by decide, c9_directors_defensive_copy 0 sampleStore [9] (by decide)⟩

/-- C10: the person count is the number of distinct registered persons:
a successful `create` grows it by exactly one; `get_or_create` of an
already-registered normalized key returns the existing instance with the
registry (hence the count) unchanged; and `get_or_create` of an
unregistered key registers one new person, growing the count by exactly
one. -/
theorem c10_person_count :
    (∀ (name : String) (st : PersonState) (p : Person) (st' : PersonState),
      createPerson name st = .ok (p, st') →
      countPersons st' = countPersons st + 1) ∧
    (∀ (name : String) (st : PersonState) (q : Person),
      pyStrip name ≠ "" →
      lookupAssoc st.persons (normKey name) = some q →
      get_person name st = .ok (q, st)) ∧
    (∀ (name : String) (st : PersonState),
      pyStrip name ≠ "" →
      lookupAssoc st.persons (normKey name) = none →
      ∃ p st', get_person name st = .ok (p, st') ∧
        countPersons st' = countPersons st + 1) := by
  refine ⟨?_, ?_, ?_⟩
  · intro name st p st' h
    unfold createPerson at h
    by_cases he : pyStrip name = ""
    · rw [if_pos he] at h
      cases h
    · rw [if_neg he] at h
      cases hl : lookupAssoc st.persons (pyLower (pyStrip name)) with
      | some _ =>
        rw [hl] at h
        cases h
      | none =>
        rw [hl] at h
        cases h
        simp [countPersons]
  · intro name st q hne hl
    unfold get_person
    rw [if_neg hne]
    unfold normKey at hl
    rw [hl]
  · intro name st hne hl
    unfold normKey at hl
    unfold get_person
    rw [if_neg hne, hl]
    unfold createPerson
    rw [pyStrip_idem, if_neg hne, hl]
    exact ⟨_, _, rfl, by simp [countPersons]⟩

/-- Witness for C10: creating "Ann" in the empty registry grows the
count from 0 to 1; `get_or_create("ANN")` then finds her and leaves the
registry unchanged; `get_or_create("Bob")` registers a second person. -/
theorem c10_person_count_witness :
    (createPerson "Ann" emptyPersonState =
       .ok (⟨0, "Ann"⟩, ⟨[("ann", ⟨0, "Ann"⟩)], 1⟩) ∧
     countPersons ⟨[("ann", ⟨0, "Ann"⟩)], 1⟩ =
       countPersons emptyPersonState + 1) ∧
    (pyStrip "ANN" ≠ "" ∧
     lookupAssoc (PersonState.mk [("ann", ⟨0, "Ann"⟩)] 1).persons
       (normKey "ANN") = some ⟨0, "Ann"⟩ ∧
     get_person "ANN" ⟨[("ann", ⟨0, "Ann"⟩)], 1⟩ =
       .ok (⟨0, "Ann"⟩, ⟨[("ann", ⟨0, "Ann"⟩)], 1⟩)) ∧
    (pyStrip "Bob" ≠ "" ∧
     lookupAssoc (PersonState.mk [("ann", ⟨0, "Ann"⟩)] 1).persons
       (normKey "Bob") = none ∧
     ∃ p st', get_person "Bob" ⟨[("ann", ⟨0, "Ann"⟩)], 1⟩ = .ok (p, st') ∧
       countPersons st' = countPersons ⟨[("ann", ⟨0, "Ann"⟩)], 1⟩ + 1) :=
  ⟨⟨by decide, c10_person_count.1 "Ann" emptyPersonState ⟨0, "Ann"⟩
      ⟨[("ann", ⟨0, "Ann"⟩)], 1⟩ (by decide)⟩,
   ⟨by decide, by decide, c10_person_count.2.1 "ANN"
      ⟨[("ann", ⟨0, "Ann"⟩)], 1⟩ ⟨0, "Ann"⟩ (by decide) (by decide)⟩,
   ⟨by decide, by decide, c10_person_count.2.2 "Bob"
      ⟨[("ann", ⟨0, "Ann"⟩)], 1⟩ (by decide) (by decide)⟩⟩

/-- C7: for every field mapping with the four required fields present
and non-empty, a registered rating code and a known genre, `create_movie`
succeeds — no optional field can make it fail — and each optional
attribute equals the lenient parse of its field (`optDate`/`optInt`
yield `none` exactly on blank or malformed input), while the required
attributes carry the given values. -/
theorem c7_lenient_optional_fields (info : FieldMap)
    (rreg : List (String × MovieRating)) (pst : PersonState)
    (rt ti rc ge : String) (r : MovieRating) (g : Genre)
    (hrt : info "rotten_tomatoes_link" = some rt) (hrt' : rt ≠ "")
    (hti : info "movie_title" = some ti) (hti' : ti ≠ "")
    (hrc : info "content_rating" = some rc) (hrc' : rc ≠ "")
    (hge : info "genre" = some ge) (hge' : ge ≠ "")
    (hr : get_rating rc rreg = .ok r)
    (hg : dispatchGenre ge = some g) :
    ∃ gm pst', create_movie info rreg pst = (.ok gm, pst') ∧
      gm.genre = g ∧
      gm.movie.rt_link = rt ∧
      gm.movie.title = ti ∧
      gm.movie.rating = r ∧
      gm.movie.release_date = optDate (info "original_release_date") ∧
      gm.movie.streaming_date = optDate (info "streaming_release_date") ∧
      gm.movie.length = optInt (info "runtime") ∧
      gm.movie.score = optInt (info "audience_rating") ∧
      gm.movie.count = optInt (info "audience_count") ∧
      gm.movie.company = info "production_company" := by
  obtain ⟨ds, pst', _, hcm⟩ :=
    create_movie_ok info rreg pst rt ti rc ge r g
      hrt hrt' hti hti' hrc hrc' hge hge' hr hg
  exact ⟨_, pst', hcm, rfl, rfl, rfl, rfl, rfl, rfl, rfl, rfl, rfl, rfl⟩

/-- Witness for C7 at the test row with `runtime = "abc"`: creation
succeeds, `length` is absent, and every other field parses normally. -/
theorem c7_lenient_optional_fields_witness :
    (MOVIE_INFO_badRuntime "rotten_tomatoes_link" =
       some "m/1000640-all_of_me" ∧
     ("m/1000640-all_of_me" : String) ≠ "" ∧
     MOVIE_INFO_badRuntime "movie_title" = some "All of Me" ∧
     ("All of Me" : String) ≠ "" ∧
     MOVIE_INFO_badRuntime "content_rating" = some "PG" ∧
     ("PG" : String) ≠ "" ∧
     MOVIE_INFO_badRuntime "genre" = some "COMEDY" ∧
     ("COMEDY" : String) ≠ "" ∧
     get_rating "PG" initRatings = .ok PG ∧
     dispatchGenre "COMEDY" = some Genre.comedy ∧
     MOVIE_INFO_badRuntime "runtime" = some "abc" ∧
     pyParseInt "abc" = none) ∧
    (∃ gm pst',
      create_movie MOVIE_INFO_badRuntime initRatings emptyPersonState =
        (.ok gm, pst') ∧
      gm.genre = Genre.comedy ∧
      gm.movie.rt_link = "m/1000640-all_of_me" ∧
      gm.movie.title = "All of Me" ∧
      gm.movie.rating = PG ∧
      gm.movie.release_date = some ⟨1984, 9, 21⟩ ∧
      gm.movie.streaming_date = some ⟨2016, 10, 30⟩ ∧
      gm.movie.length = none ∧
      gm.movie.score = some 67 ∧
      gm.movie.count = some 14346 ∧
      gm.movie.company = some "HBO Video") :=
  ⟨⟨by decide, by decide, by decide, by decide, by decide, by decide,
    by decide, by decide, by decide, by decide, by decide, by decide⟩,
   c7_lenient_optional_fields MOVIE_INFO_badRuntime initRatings
     emptyPersonState "m/1000640-all_of_me" "All of Me" "PG" "COMEDY" PG
     Genre.comedy (by decide) (by decide) (by decide) (by decide)
     (by decide) (by decide) (by decide) (by decide) (by decide)
     (by decide)⟩

/-- C5 counterexample: blanking the production-company field of the
otherwise valid test row makes `create_movie` succeed with
`company = some ""` — the empty string, not an absent attribute — so
"blanking any other single field yields the corresponding attribute
absent" is false as stated. -/
theorem c5_company_blank_counterexample :
    Except.map (fun gm => gm.movie.company)
      (create_movie (setF MOVIE_INFO "production_company" "") initRatings
        emptyPersonState).1 = .ok (some "") ∧
    (some "" : Option String) ≠ none := by
  exact ⟨by decide, by decide⟩

/-- C5 (amended): on a field mapping satisfying the factory's success
conditions, blanking any of the four required fields individually makes
`create_movie` fail with the "missing required fields" InvalidArgument
error; blanking any other single field still succeeds, with the
directors list empty and each date/integer attribute absent — except the
production company, which is stored as the given empty string rather
than left absent. -/
theorem c5_blank_field_behaviour (info : FieldMap)
    (rreg : List (String × MovieRating)) (pst : PersonState)
    (rt ti rc ge : String) (r : MovieRating) (g : Genre)
    (hrt : info "rotten_tomatoes_link" = some rt) (hrt' : rt ≠ "")
    (hti : info "movie_title" = some ti) (hti' : ti ≠ "")
    (hrc : info "content_rating" = some rc) (hrc' : rc ≠ "")
    (hge : info "genre" = some ge) (hge' : ge ≠ "")
    (hr : get_rating rc rreg = .ok r)
    (hg : dispatchGenre ge = some g) :
    create_movie (setF info "rotten_tomatoes_link" "") rreg pst =
      (.error CreateErr.missingRequired, pst) ∧
    create_movie (setF info "movie_title" "") rreg pst =
      (.error CreateErr.missingRequired, pst) ∧
    create_movie (setF info "content_rating" "") rreg pst =
      (.error CreateErr.missingRequired, pst) ∧
    create_movie (setF info "genre" "") rreg pst =
      (.error CreateErr.missingRequired, pst) ∧
    (∃ gm pst', create_movie (setF info "directors" "") rreg pst =
      (.ok gm, pst') ∧ gm.movie.directors = []) ∧
    (∃ gm pst', create_movie (setF info "original_release_date" "") rreg pst =
      (.ok gm, pst') ∧ gm.movie.release_date = none) ∧
    (∃ gm pst', create_movie (setF info "streaming_release_date" "") rreg pst =
      (.ok gm, pst') ∧ gm.movie.streaming_date = none) ∧
    (∃ gm pst', create_movie (setF info "runtime" "") rreg pst =
      (.ok gm, pst') ∧ gm.movie.length = none) ∧
    (∃ gm pst', create_movie (setF info "audience_rating" "") rreg pst =
      (.ok gm, pst') ∧ gm.movie.score = none) ∧
    (∃ gm pst', create_movie (setF info "audience_count" "") rreg pst =
      (.ok gm, pst') ∧ gm.movie.count = none) ∧
    (∃ gm pst', create_movie (setF info "production_company" "") rreg pst =
      (.ok gm, pst') ∧ gm.movie.company = some "") := by
  refine ⟨?_, ?_, ?_, ?_, ?_, ?_, ?_, ?_, ?_, ?_, ?_⟩
  · exact create_movie_blank_required _ rreg pst "" ti rc ge
      (setF_same info _ "")
      ((setF_other info _ "" "movie_title" (by decide)).trans hti)
      ((setF_other info _ "" "content_rating" (by decide)).trans hrc)
      ((setF_other info _ "" "genre" (by decide)).trans hge)
      (Or.inl rfl)
  · exact create_movie_blank_required _ rreg pst rt "" rc ge
      ((setF_other info _ "" "rotten_tomatoes_link" (by decide)).trans hrt)
      (setF_same info _ "")
      ((setF_other info _ "" "content_rating" (by decide)).trans hrc)
      ((setF_other info _ "" "genre" (by decide)).trans hge)
      (Or.inr (Or.inl rfl))
  · exact create_movie_blank_required _ rreg pst rt ti "" ge
      ((setF_other info _ "" "rotten_tomatoes_link" (by decide)).trans hrt)
      ((setF_other info _ "" "movie_title" (by decide)).trans hti)
      (setF_same info _ "")
      ((setF_other info _ "" "genre" (by decide)).trans hge)
      (Or.inr (Or.inr (Or.inl rfl)))
  · exact create_movie_blank_required _ rreg pst rt ti rc ""
      ((setF_other info _ "" "rotten_tomatoes_link" (by decide)).trans hrt)
      ((setF_other info _ "" "movie_title" (by decide)).trans hti)
      ((setF_other info _ "" "content_rating" (by decide)).trans hrc)
      (setF_same info _ "")
      (Or.inr (Or.inr (Or.inr rfl)))
  · obtain ⟨ds, pst', hds, hcm⟩ :=
      create_movie_ok (setF info "directors" "") rreg pst rt ti rc ge r g
        ((setF_other info _ "" "rotten_tomatoes_link" (by decide)).trans hrt) hrt'
        ((setF_other info _ "" "movie_title" (by decide)).trans hti) hti'
        ((setF_other info _ "" "content_rating" (by decide)).trans hrc) hrc'
        ((setF_other info _ "" "genre" (by decide)).trans hge) hge'
        hr hg
    have ht : directorTokens ((setF info "directors" "" "directors").getD "") =
        [] := by
      rw [setF_same]
      rfl
    rw [ht] at hds
    have h2 : (Except.ok (([] : List Person), pst) :
        Except PErr (List Person × PersonState)) = .ok (ds, pst') := hds
    cases h2
    exact ⟨_, pst, hcm, rfl⟩
  · obtain ⟨ds, pst', _, hcm⟩ :=
      create_movie_ok (setF info "original_release_date" "") rreg pst
        rt ti rc ge r g
        ((setF_other info _ "" "rotten_tomatoes_link" (by decide)).trans hrt) hrt'
        ((setF_other info _ "" "movie_title" (by decide)).trans hti) hti'
        ((setF_other info _ "" "content_rating" (by decide)).trans hrc) hrc'
        ((setF_other info _ "" "genre" (by decide)).trans hge) hge'
        hr hg
    refine ⟨_, pst', hcm, ?_⟩
    show optDate (setF info "original_release_date" "" "original_release_date") =
      none
    rw [setF_same]
    decide
  · obtain ⟨ds, pst', _, hcm⟩ :=
      create_movie_ok (setF info "streaming_release_date" "") rreg pst
        rt ti rc ge r g
        ((setF_other info _ "" "rotten_tomatoes_link" (by decide)).trans hrt) hrt'
        ((setF_other info _ "" "movie_title" (by decide)).trans hti) hti'
        ((setF_other info _ "" "content_rating" (by decide)).trans hrc) hrc'
        ((setF_other info _ "" "genre" (by decide)).trans hge) hge'
        hr hg
    refine ⟨_, pst', hcm, ?_⟩
    show optDate (setF info "streaming_release_date" "" "streaming_release_date") =
      none
    rw [setF_same]
    decide
  · obtain ⟨ds, pst', _, hcm⟩ :=
      create_movie_ok (setF info "runtime" "") rreg pst rt ti rc ge r g
        ((setF_other info _ "" "rotten_tomatoes_link" (by decide)).trans hrt) hrt'
        ((setF_other info _ "" "movie_title" (by decide)).trans hti) hti'
        ((setF_other info _ "" "content_rating" (by decide)).trans hrc) hrc'
        ((setF_other info _ "" "genre" (by decide)).trans hge) hge'
        hr hg
    refine ⟨_, pst', hcm, ?_⟩
    show optInt (setF info "runtime" "" "runtime") = none
    rw [setF_same]
    decide
  · obtain ⟨ds, pst', _, hcm⟩ :=
      create_movie_ok (setF info "audience_rating" "") rreg pst rt ti rc ge r g
        ((setF_other info _ "" "rotten_tomatoes_link" (by decide)).trans hrt) hrt'
        ((setF_other info _ "" "movie_title" (by decide)).trans hti) hti'
        ((setF_other info _ "" "content_rating" (by decide)).trans hrc) hrc'
        ((setF_other info _ "" "genre" (by decide)).trans hge) hge'
        hr hg
    refine ⟨_, pst', hcm, ?_⟩
    show optInt (setF info "audience_rating" "" "audience_rating") = none
    rw [setF_same]
    decide
  · obtain ⟨ds, pst', _, hcm⟩ :=
      create_movie_ok (setF info "audience_count" "") rreg pst rt ti rc ge r g
        ((setF_other info _ "" "rotten_tomatoes_link" (by decide)).trans hrt) hrt'
        ((setF_other info _ "" "movie_title" (by decide)).trans hti) hti'
        ((setF_other info _ "" "content_rating" (by decide)).trans hrc) hrc'
        ((setF_other info _ "" "genre" (by decide)).trans hge) hge'
        hr hg
    refine ⟨_, pst', hcm, ?_⟩
    show optInt (setF info "audience_count" "" "audience_count") = none
    rw [setF_same]
    decide
  · obtain ⟨ds, pst', _, hcm⟩ :=
      create_movie_ok (setF info "production_company" "") rreg pst
        rt ti rc ge r g
        ((setF_other info _ "" "rotten_tomatoes_link" (by decide)).trans hrt) hrt'
        ((setF_other info _ "" "movie_title" (by decide)).trans hti) hti'
        ((setF_other info _ "" "content_rating" (by decide)).trans hrc) hrc'
        ((setF_other info _ "" "genre" (by decide)).trans hge) hge'
        hr hg
    refine ⟨_, pst', hcm, ?_⟩
    show setF info "production_company" "" "production_company" = some ""
    exact setF_same info _ ""

/-- Witness for C5 (amended) at the test row: each required field blanked
fails, each optional field blanked succeeds with the stated attribute
value. -/
theorem c5_blank_field_behaviour_witness :
    (MOVIE_INFO "rotten_tomatoes_link" = some "m/1000640-all_of_me" ∧
     ("m/1000640-all_of_me" : String) ≠ "" ∧
     MOVIE_INFO "movie_title" = some "All of Me" ∧
     ("All of Me" : String) ≠ "" ∧
     MOVIE_INFO "content_rating" = some "PG" ∧
     ("PG" : String) ≠ "" ∧
     MOVIE_INFO "genre" = some "COMEDY" ∧
     ("COMEDY" : String) ≠ "" ∧
     get_rating "PG" initRatings = .ok PG ∧
     dispatchGenre "COMEDY" = some Genre.comedy) ∧
    (create_movie (setF MOVIE_INFO "rotten_tomatoes_link" "") initRatings
       emptyPersonState = (.error CreateErr.missingRequired, emptyPersonState) ∧
     create_movie (setF MOVIE_INFO "movie_title" "") initRatings
       emptyPersonState = (.error CreateErr.missingRequired, emptyPersonState) ∧
     create_movie (setF MOVIE_INFO "content_rating" "") initRatings
       emptyPersonState = (.error CreateErr.missingRequired, emptyPersonState) ∧
     create_movie (setF MOVIE_INFO "genre" "") initRatings
       emptyPersonState = (.error CreateErr.missingRequired, emptyPersonState) ∧
     (∃ gm pst', create_movie (setF MOVIE_INFO "directors" "") initRatings
       emptyPersonState = (.ok gm, pst') ∧ gm.movie.directors = []) ∧
     (∃ gm pst', create_movie (setF MOVIE_INFO "original_release_date" "")
       initRatings emptyPersonState = (.ok gm, pst') ∧
       gm.movie.release_date = none) ∧
     (∃ gm pst', create_movie (setF MOVIE_INFO "streaming_release_date" "")
       initRatings emptyPersonState = (.ok gm, pst') ∧
       gm.movie.streaming_date = none) ∧
     (∃ gm pst', create_movie (setF MOVIE_INFO "runtime" "") initRatings
       emptyPersonState = (.ok gm, pst') ∧ gm.movie.length = none) ∧
     (∃ gm pst', create_movie (setF MOVIE_INFO "audience_rating" "")
       initRatings emptyPersonState = (.ok gm, pst') ∧
       gm.movie.score = none) ∧
     (∃ gm pst', create_movie (setF MOVIE_INFO "audience_count" "")
       initRatings emptyPersonState = (.ok gm, pst') ∧
       gm.movie.count = none) ∧
     (∃ gm pst', create_movie (setF MOVIE_INFO "production_company" "")
       initRatings emptyPersonState = (.ok gm, pst') ∧
       gm.movie.company = some "")) :=
  ⟨⟨by decide, by decide, by decide, by decide, by decide, by decide,
    by decide, by decide, by decide, by decide⟩,
   c5_blank_field_behaviour MOVIE_INFO initRatings emptyPersonState
     "m/1000640-all_of_me" "All of Me" "PG" "COMEDY" PG Genre.comedy
     (by decide) (by decide) (by decide) (by decide) (by decide)
     (by decide) (by decide) (by decide) (by decide) (by decide)⟩

end Syntra
